import Mathlib

/-!
Shallow embedding of the transform-correction engine shared by
`src/grid-snapper.py` and `src/mirror-mender.py` (loweredcase/glyphs-tools).

Coordinates and transform entries are modelled as rationals (`ℚ`); the host
scripts carry them as Python floats.  Fallible host accesses
(`get_transform_struct`, base-bounds resolution) are modelled as `Option`.
Python's built-in `round` (used by the grid snapper) performs
round-half-to-even on the exact value; it is modelled by `pyRound`.
-/

namespace GlyphsTools

/-- A placed component's 6-value affine transform, the tuple
`(m11, m12, m21, m22, tX, tY)` returned by `get_transform_struct`. -/
structure Transform where
  m11 : ℚ
  m12 : ℚ
  m21 : ℚ
  m22 : ℚ
  tX  : ℚ
  tY  : ℚ
  deriving DecidableEq, Repr

/-- Axis-aligned bounding box `(minX, minY, maxX, maxY)` in layer space. -/
structure BBox where
  minX : ℚ
  minY : ℚ
  maxX : ℚ
  maxY : ℚ
  deriving DecidableEq, Repr

/-- `det_of` from both scripts: determinant of the linear part. -/
def det_of (s : Transform) : ℚ :=
  s.m11 * s.m22 - s.m12 * s.m21

/-- `apply_affine_to_point` from mirror-mender.py. -/
def apply_affine_to_point (x y : ℚ) (s : Transform) : ℚ × ℚ :=
  (s.m11 * x + s.m21 * y + s.tX, s.m12 * x + s.m22 * y + s.tY)

/-- `bbox_from_transformed_base_bounds` from mirror-mender.py: transform the
four corners of the base box and take coordinatewise min/max (in the same
left-to-right order as the Python list). -/
def bbox_from_transformed_base_bounds (b : BBox) (s : Transform) : BBox :=
  let p1 := apply_affine_to_point b.minX b.minY s
  let p2 := apply_affine_to_point b.minX b.maxY s
  let p3 := apply_affine_to_point b.maxX b.minY s
  let p4 := apply_affine_to_point b.maxX b.maxY s
  ⟨min (min (min p1.1 p2.1) p3.1) p4.1,
   min (min (min p1.2 p2.2) p3.2) p4.2,
   max (max (max p1.1 p2.1) p3.1) p4.1,
   max (max (max p1.2 p2.2) p3.2) p4.2⟩

/-- `center_of` from mirror-mender.py. -/
def center_of (b : BBox) : ℚ × ℚ :=
  ((b.minX + b.maxX) * (1/2), (b.minY + b.maxY) * (1/2))

/-- Anchor mode: `"bottomleft"` or `"center"` in the script. -/
inductive Anchor where
  | bottomleft
  | center
  deriving DecidableEq, Repr

/-- `delta_to_match` from mirror-mender.py. -/
def delta_to_match (beforeB afterB : BBox) (mode : Anchor) : ℚ × ℚ :=
  match mode with
  | .center =>
      let c0 := center_of beforeB
      let c1 := center_of afterB
      (c0.1 - c1.1, c0.2 - c1.2)
  | .bottomleft => (beforeB.minX - afterB.minX, beforeB.minY - afterB.minY)

/-- `flipX_in_component_space` from mirror-mender.py. -/
def flipX_in_component_space (s : Transform) : Transform :=
  ⟨-s.m11, -s.m12, s.m21, s.m22, s.tX, s.tY⟩

/-- `flipY_in_component_space` from mirror-mender.py. -/
def flipY_in_component_space (s : Transform) : Transform :=
  ⟨s.m11, s.m12, -s.m21, -s.m22, s.tX, s.tY⟩

/-- Method selector: `"auto"`, `"vertical"`, `"horizontal"` in the script. -/
inductive Prefer where
  | auto
  | vertical
  | horizontal
  deriving DecidableEq, Repr

/-- Which flip a candidate used: the tuple tag `"Y"` or `"X"`. -/
inductive Axis where
  | Y
  | X
  deriving DecidableEq, Repr

/-- A repair candidate, the 5-tuple `(axis, sFix, dx, dy, score)` built inside
`choose_best_fix`. -/
structure Cand where
  axis  : Axis
  sFix  : Transform
  dx    : ℚ
  dy    : ℚ
  score : ℚ
  deriving DecidableEq, Repr

/-- Builds one candidate tuple the way `choose_best_fix` does for a surviving
flip: bbox of the flipped transform, delta to the chosen anchor, score
`|dx| + |dy|`. -/
def mk_cand (axis : Axis) (beforeB baseB : BBox) (sFlip : Transform)
    (anchor : Anchor) : Cand :=
  let afterB := bbox_from_transformed_base_bounds baseB sFlip
  let d := delta_to_match beforeB afterB anchor
  ⟨axis, sFlip, d.1, d.2, |d.1| + |d.2|⟩

/-- Head of Python's stable `sorted(cands, key=score)`: the first element of
the list attaining the minimal score. -/
def best_cand : Cand → List Cand → Cand
  | c, [] => c
  | c, d :: rest => if d.score < c.score then best_cand d rest else best_cand c rest

/-- The candidate list built at the top of `choose_best_fix`: vertical flip
first, then horizontal flip, each kept only if its recomputed determinant is
`≥ 0`. -/
def fix_cands (beforeB baseB : BBox) (s : Transform) (anchor : Anchor) :
    List Cand :=
  (if 0 ≤ det_of (flipY_in_component_space s) then
    [mk_cand .Y beforeB baseB (flipY_in_component_space s) anchor] else []) ++
  (if 0 ≤ det_of (flipX_in_component_space s) then
    [mk_cand .X beforeB baseB (flipX_in_component_space s) anchor] else [])

/-- `choose_best_fix` from mirror-mender.py, with its candidate list factored
out as `fix_cands`.  The forced-axis loops fall through to the stable sort
when the forced axis is absent from the list. -/
def choose_best_fix (beforeB baseB : BBox) (s : Transform) (prefer : Prefer)
    (anchor : Anchor) : Option Cand :=
  match fix_cands beforeB baseB s anchor with
  | [] => none
  | c :: rest =>
    match prefer with
    | .vertical =>
        match (c :: rest).find? (fun t => t.axis = Axis.Y) with
        | some t => some t
        | none => some (best_cand c rest)
    | .horizontal =>
        match (c :: rest).find? (fun t => t.axis = Axis.X) with
        | some t => some t
        | none => some (best_cand c rest)
    | .auto => some (best_cand c rest)

/-- One bounds object offered by a layer (origin + size), as probed by
`layer_bounds_complete`. -/
structure RawBounds where
  x : ℚ
  y : ℚ
  w : ℚ
  h : ℚ
  deriving DecidableEq, Repr

/-- Python truthiness of `b.size.width and b.size.height`: both nonzero. -/
def rect_ok (b : RawBounds) : Bool :=
  decide (b.w ≠ 0) && decide (b.h ≠ 0)

/-- `layer_bounds_complete` from mirror-mender.py: the attribute-probing chain
collapsed to the list of bounds objects the layer offers, in probe order; the
first with nonzero width and height is converted to a `BBox`, else `None`. -/
def layer_bounds_complete (cands : List RawBounds) : Option BBox :=
  match cands.find? rect_ok with
  | some b => some ⟨b.x, b.y, b.x + b.w, b.y + b.h⟩
  | none => none

/-- A placed component as the mirror mender sees it: the result of
`get_transform_struct` and the bounds objects its base glyph's layer offers
(`none` when the base glyph or its layer cannot be resolved). -/
structure MComp where
  s? : Option Transform
  baseCands : Option (List RawBounds)
  deriving DecidableEq, Repr

/-- `base_bounds_for_component_glyph` from mirror-mender.py. -/
def base_bounds_for_component_glyph (c : MComp) : Option BBox :=
  match c.baseCands with
  | none => none
  | some l => layer_bounds_complete l

/-- `is_reflected` from mirror-mender.py. -/
def is_reflected (c : MComp) : Bool :=
  match c.s? with
  | none => false
  | some s => decide (det_of s < 0)

/-- The per-component body of `MirrorMenderUI._scan`: `none` when the
component contributes no correction op, `some sNew` when the op `(comp, sNew)`
is appended. -/
def scan_comp (prefer : Prefer) (anchor : Anchor) (c : MComp) : Option Transform :=
  if is_reflected c then
    match c.s? with
    | none => none
    | some s =>
      match base_bounds_for_component_glyph c with
      | none => none
      | some baseB =>
        let beforeB := bbox_from_transformed_base_bounds baseB s
        match choose_best_fix beforeB baseB s prefer anchor with
        | none => none
        | some pick =>
          let sNew : Transform :=
            ⟨pick.sFix.m11, pick.sFix.m12, pick.sFix.m21, pick.sFix.m22,
             pick.sFix.tX + pick.dx, pick.sFix.tY + pick.dy⟩
          if det_of sNew < 0 then none else some sNew
  else none

/-- Effect of `MirrorMenderUI.run` on one component: its transform is
overwritten by the planned correction when the scan produced one, otherwise
the component is left untouched. -/
def apply_comp (prefer : Prefer) (anchor : Anchor) (c : MComp) : MComp :=
  match scan_comp prefer anchor c with
  | none => c
  | some sNew => ⟨some sNew, c.baseCands⟩

/-! ## Grid snapper (`src/grid-snapper.py`) -/

/-- Python's built-in `round`: round half to even on the exact value. -/
def pyRound (q : ℚ) : ℤ :=
  let f := ⌊q⌋
  let r := q - f
  if r < 1/2 then f
  else if 1/2 < r then f + 1
  else if f % 2 = 0 then f else f + 1

/-- `snap_value` from grid-snapper.py. -/
def snap_value (v step : ℚ) : ℚ :=
  if step ≤ 0 then v else (pyRound (v / step) : ℚ) * step

/-- `snap_if_within` from grid-snapper.py.  Returns
`(newV, changed, deltaToNearest)`; note `newV` is the nearest gridline
whenever `step > 0`, regardless of `changed`. -/
def snap_if_within (v step tol : ℚ) : ℚ × Bool × ℚ :=
  if step ≤ 0 then (v, false, 0)
  else
    let nearest := snap_value v step
    let delta := nearest - v
    if tol ≤ 0 then (nearest, decide (1/1000000 < |delta|), delta)
    else (nearest, decide (|delta| ≤ tol) && decide (1/1000000 < |delta|), delta)

/-- A placed component as the grid snapper sees it: just the result of
`get_transform_struct`. -/
structure GComp where
  s? : Option Transform
  deriving DecidableEq, Repr

/-- The per-component body of `GridSnapperUI._scan`: `none` when the component
is skipped, `some sNew` when the op `(comp, sNew)` is appended.  The written
translation is `(newX, newY)` from `snap_if_within` on both axes as soon as
either axis reports `changed`. -/
def gsnap_comp (step tol : ℚ) (c : GComp) : Option Transform :=
  match c.s? with
  | none => none
  | some s =>
    let rx := snap_if_within s.tX step tol
    let ry := snap_if_within s.tY step tol
    if rx.2.1 || ry.2.1 then
      some ⟨s.m11, s.m12, s.m21, s.m22, rx.1, ry.1⟩
    else none

/-- Effect of `GridSnapperUI.run`'s write loop on one component. -/
def gapply_comp (step tol : ℚ) (c : GComp) : GComp :=
  match gsnap_comp step tol c with
  | none => c
  | some sNew => ⟨some sNew⟩

/-- Effect of `GridSnapperUI.run`'s write loop on a list of components (the
op list is computed in a read-only pass over the same list, then applied). -/
def gapply (step tol : ℚ) (comps : List GComp) : List GComp :=
  comps.map (gapply_comp step tol)

/-! ## Scope resolution (`GridSnapperUI._collect_layers`) -/

/-- A glyph as the scope resolver sees it: its `export` flag (field renamed
`exportFlag`, `export` being reserved in Lean) and the layer (list of placed
components) it has for each master id. -/
structure GGlyph where
  exportFlag : Bool
  layers : List (String × List GComp)
  deriving DecidableEq, Repr

/-- A selected layer: its parent glyph (`None` possible for orphan layers)
and its components. -/
structure SelLayer where
  parent : Option GGlyph
  comps : List GComp
  deriving DecidableEq, Repr

/-- `g.layers[m.id]` for a master id: `None` when the glyph has no layer for
that master. -/
def glyph_layer (g : GGlyph) (mid : String) : Option (List GComp) :=
  match g.layers.find? (fun p => p.1 = mid) with
  | some p => some p.2
  | none => none

/-- The font-document state the scope resolver reads. -/
structure GFont where
  selectedLayers : List SelLayer
  selectedFontMaster : Option String
  masters : List (Option String)
  glyphs : List (Option GGlyph)
  deriving DecidableEq, Repr

/-- `selected_glyphs` from grid-snapper.py: parents of the selected layers,
deduplicated, in first-seen order. -/
def selected_glyphs (ls : List SelLayer) : List GGlyph :=
  ls.foldl
    (fun out L =>
      match L.parent with
      | some g => if g ∈ out then out else out ++ [g]
      | none => out)
    []

/-- `exportable_glyphs` from grid-snapper.py. -/
def exportable_glyphs (gs : List (Option GGlyph)) : List GGlyph :=
  gs.filterMap (fun g? =>
    match g? with
    | some g => if g.exportFlag then some g else none
    | none => none)

/-- The master list resolved by `_collect_layers` before its emptiness check:
`[selectedFontMaster]` or the font's master list, `None` entries dropped. -/
def resolve_masters (f : GFont) (masterMode : ℕ) : List String :=
  (if masterMode = 0 then
     match f.selectedFontMaster with
     | some m => [some m]
     | none => []
   else f.masters).filterMap id

/-- The glyph × master layer expansion of `_collect_layers`. -/
def expand_layers (glyphs : List GGlyph) (masters : List String) :
    List (List GComp) :=
  glyphs.flatMap (fun g => masters.filterMap (fun m => glyph_layer g m))

/-- `GridSnapperUI._collect_layers`: resolves the scope/master selectors to a
list of layers (each a component list) or an operator-facing error message. -/
def collect_layers (f? : Option GFont) (scopeIdx masterMode : ℕ) :
    Except String (List (List GComp)) :=
  match f? with
  | none => .error "No font open."
  | some f =>
    if scopeIdx = 0 then
      if f.selectedLayers.isEmpty then .error "Select one or more layers first."
      else .ok (f.selectedLayers.map (fun L => L.comps))
    else
      let masters := resolve_masters f masterMode
      if masters.isEmpty then .error "No masters found."
      else
        let glyphs :=
          if scopeIdx = 1 then selected_glyphs f.selectedLayers
          else exportable_glyphs f.glyphs
        if glyphs.isEmpty then
          .error (if scopeIdx = 1 then "No selected glyphs found."
                  else "No exportable glyphs found.")
        else
          let layers := expand_layers glyphs masters
          if layers.isEmpty then .error "No layers found for the chosen scope."
          else .ok layers

/-- `GridSnapperUI.run`: the list of transform writes it issues.  Scope
resolution failure, `step ≤ 0` and `tol < 0` all abort before the scan; only
then are the scan's ops applied. -/
def grid_run (f? : Option GFont) (scopeIdx masterMode : ℕ) (step tol : ℚ) :
    List Transform :=
  match collect_layers f? scopeIdx masterMode with
  | .error _ => []
  | .ok layers =>
    if step ≤ 0 then []
    else if tol < 0 then []
    else (layers.flatMap id).filterMap (gsnap_comp step tol)

/-- Modelled from the spec: round half away from zero, the rounding mode §4.2
prescribes for the grid detector's `round(c/step)`. -/
def roundHalfAwayFromZero (q : ℚ) : ℤ :=
  if 0 ≤ q then ⌊q + 1/2⌋ else ⌈q - 1/2⌉

/-! ## Helper lemmas -/

lemma det_flipY (s : Transform) :
    det_of (flipY_in_component_space s) = -det_of s := by
  simp only [det_of, flipY_in_component_space]; ring

lemma det_flipX (s : Transform) :
    det_of (flipX_in_component_space s) = -det_of s := by
  simp only [det_of, flipX_in_component_space]; ring

lemma min4_add (a b c d e : ℚ) :
    min (min (min (a + e) (b + e)) (c + e)) (d + e) =
      min (min (min a b) c) d + e := by
  rw [min_add_add_right, min_add_add_right, min_add_add_right]

lemma max4_add (a b c d e : ℚ) :
    max (max (max (a + e) (b + e)) (c + e)) (d + e) =
      max (max (max a b) c) d + e := by
  rw [max_add_add_right, max_add_add_right, max_add_add_right]

/-- Adding `(dx, dy)` to a transform's translation shifts the transformed
bounding box by `(dx, dy)`. -/
lemma bbox_shift (b : BBox) (s : Transform) (dx dy : ℚ) :
    bbox_from_transformed_base_bounds b
        ⟨s.m11, s.m12, s.m21, s.m22, s.tX + dx, s.tY + dy⟩ =
      ⟨(bbox_from_transformed_base_bounds b s).minX + dx,
       (bbox_from_transformed_base_bounds b s).minY + dy,
       (bbox_from_transformed_base_bounds b s).maxX + dx,
       (bbox_from_transformed_base_bounds b s).maxY + dy⟩ := by
  simp only [bbox_from_transformed_base_bounds, apply_affine_to_point,
    ← add_assoc, min_add_add_right, max_add_add_right]

/-- Inversion for the per-component mirror scan: an accepted correction comes
from a reflected transform, resolvable base bounds, an accepted candidate, and
passes the final determinant recheck. -/
lemma scan_comp_inv {prefer : Prefer} {anchor : Anchor} {c : MComp}
    {sNew : Transform} (h : scan_comp prefer anchor c = some sNew) :
    ∃ s baseB pick,
      c.s? = some s ∧ det_of s < 0 ∧
      base_bounds_for_component_glyph c = some baseB ∧
      choose_best_fix (bbox_from_transformed_base_bounds baseB s) baseB s
        prefer anchor = some pick ∧
      sNew = ⟨pick.sFix.m11, pick.sFix.m12, pick.sFix.m21, pick.sFix.m22,
              pick.sFix.tX + pick.dx, pick.sFix.tY + pick.dy⟩ ∧
      ¬ det_of sNew < 0 := by
  unfold scan_comp at h
  split at h
  case isTrue hr =>
    unfold is_reflected at hr
    cases hs : c.s? with
    | none => rw [hs] at hr; simp at hr
    | some s =>
      rw [hs] at h hr
      simp only [decide_eq_true_eq] at hr
      cases hb : base_bounds_for_component_glyph c with
      | none => rw [hb] at h; simp at h
      | some baseB =>
        rw [hb] at h
        simp only at h
        cases hp : choose_best_fix
            (bbox_from_transformed_base_bounds baseB s) baseB s
            prefer anchor with
        | none => rw [hp] at h; simp at h
        | some pick =>
          rw [hp] at h
          simp only at h
          split at h
          case isTrue => simp at h
          case isFalse hd =>
            injection h with h'
            subst h'
            exact ⟨s, baseB, pick, rfl, hr, rfl, hp, rfl, hd⟩
  case isFalse => simp at h

/-- The head of the stable sort is an element of the list. -/
lemma best_cand_mem (c : Cand) (rest : List Cand) :
    best_cand c rest ∈ c :: rest := by
  induction rest generalizing c with
  | nil => simp [best_cand]
  | cons d rest ih =>
    simp only [best_cand]
    split
    · exact List.mem_cons_of_mem _ (ih d)
    · rcases List.mem_cons.mp (ih c) with h | h
      · rw [h]; exact List.mem_cons_self _ _
      · exact List.mem_cons_of_mem _ (List.mem_cons_of_mem _ h)

/-- Anything in `fix_cands` is one of the two flip candidates. -/
lemma fix_cands_mem {beforeB baseB : BBox} {s : Transform} {anchor : Anchor}
    {t : Cand} (h : t ∈ fix_cands beforeB baseB s anchor) :
    t = mk_cand .Y beforeB baseB (flipY_in_component_space s) anchor ∨
    t = mk_cand .X beforeB baseB (flipX_in_component_space s) anchor := by
  unfold fix_cands at h
  rcases List.mem_append.mp h with h | h <;> split at h <;> simp at h <;>
    simp [h]

/-- `choose_best_fix` only ever returns one of the two flip candidates. -/
lemma cbf_mem {beforeB baseB : BBox} {s : Transform} {prefer : Prefer}
    {anchor : Anchor} {pick : Cand}
    (h : choose_best_fix beforeB baseB s prefer anchor = some pick) :
    pick = mk_cand .Y beforeB baseB (flipY_in_component_space s) anchor ∨
    pick = mk_cand .X beforeB baseB (flipX_in_component_space s) anchor := by
  unfold choose_best_fix at h
  cases hc : fix_cands beforeB baseB s anchor with
  | nil => rw [hc] at h; simp at h
  | cons c rest =>
    rw [hc] at h
    have hmem : pick ∈ c :: rest := by
      cases prefer with
      | vertical =>
        simp only at h
        cases hf : (c :: rest).find? (fun t => t.axis = Axis.Y) with
        | some t =>
          rw [hf] at h
          injection h with h'
          exact h' ▸ List.mem_of_find?_eq_some hf
        | none =>
          rw [hf] at h
          injection h with h'
          exact h' ▸ best_cand_mem c rest
      | horizontal =>
        simp only at h
        cases hf : (c :: rest).find? (fun t => t.axis = Axis.X) with
        | some t =>
          rw [hf] at h
          injection h with h'
          exact h' ▸ List.mem_of_find?_eq_some hf
        | none =>
          rw [hf] at h
          injection h with h'
          exact h' ▸ best_cand_mem c rest
      | auto =>
        simp only at h
        injection h with h'
        exact h' ▸ best_cand_mem c rest
    exact fix_cands_mem (hc ▸ hmem)

/-- With both flips surviving the determinant check, the candidate list is
exactly `[Y-candidate, X-candidate]`. -/
lemma fix_cands_both {beforeB baseB : BBox} {s : Transform} {anchor : Anchor}
    (hY : 0 ≤ det_of (flipY_in_component_space s))
    (hX : 0 ≤ det_of (flipX_in_component_space s)) :
    fix_cands beforeB baseB s anchor =
      [mk_cand .Y beforeB baseB (flipY_in_component_space s) anchor,
       mk_cand .X beforeB baseB (flipX_in_component_space s) anchor] := by
  unfold fix_cands
  rw [if_pos hY, if_pos hX]
  rfl

/-! ## Claim theorems -/

/-- C1: for every mirrored component for which mirror correction accepts a
candidate, with anchor BottomLeft the corrected transform's bounding box over
the base bounds agrees with the pre-fix box's `(minX, minY)` within `1e-6`
(in fact exactly), and with anchor Center the two box centers agree within
the same tolerance. -/
theorem mirror_anchor_matching (prefer : Prefer) (c : MComp) (s : Transform)
    (baseB : BBox) (hdet : det_of s < 0) (hs : c.s? = some s)
    (hb : base_bounds_for_component_glyph c = some baseB) :
    (∀ sNew, scan_comp prefer .bottomleft c = some sNew →
      |(bbox_from_transformed_base_bounds baseB sNew).minX -
        (bbox_from_transformed_base_bounds baseB s).minX| ≤ 1/1000000 ∧
      |(bbox_from_transformed_base_bounds baseB sNew).minY -
        (bbox_from_transformed_base_bounds baseB s).minY| ≤ 1/1000000) ∧
    (∀ sNew, scan_comp prefer .center c = some sNew →
      |(center_of (bbox_from_transformed_base_bounds baseB sNew)).1 -
        (center_of (bbox_from_transformed_base_bounds baseB s)).1| ≤ 1/1000000 ∧
      |(center_of (bbox_from_transformed_base_bounds baseB sNew)).2 -
        (center_of (bbox_from_transformed_base_bounds baseB s)).2| ≤ 1/1000000) := by
  clear hdet
  constructor <;> intro sNew h <;>
  · obtain ⟨s', baseB', pick, hs', hdet', hb', hp, hsnew, _⟩ := scan_comp_inv h
    rw [hs] at hs'; injection hs' with e; subst e
    rw [hb] at hb'; injection hb' with e; subst e
    subst hsnew
    rcases cbf_mem hp with hpk | hpk <;> subst hpk <;>
      simp only [bbox_shift, mk_cand, delta_to_match, center_of] <;>
      refine ⟨?_, ?_⟩ <;> (ring_nf; norm_num)

/-- Witness for C1 at the spec §8 scenario: base bounds `(0,0,100,100)`,
transform `(1,0,0,-1,50,150)`, Auto/BottomLeft, corrected to
`(1,0,0,1,50,50)`. -/
theorem mirror_anchor_matching_witness :
    |(bbox_from_transformed_base_bounds ⟨0,0,100,100⟩ ⟨1,0,0,1,50,50⟩).minX -
      (bbox_from_transformed_base_bounds ⟨0,0,100,100⟩ ⟨1,0,0,-1,50,150⟩).minX|
        ≤ 1/1000000 ∧
    |(bbox_from_transformed_base_bounds ⟨0,0,100,100⟩ ⟨1,0,0,1,50,50⟩).minY -
      (bbox_from_transformed_base_bounds ⟨0,0,100,100⟩ ⟨1,0,0,-1,50,150⟩).minY|
        ≤ 1/1000000 :=
  (mirror_anchor_matching .auto ⟨some ⟨1,0,0,-1,50,150⟩, some [⟨0,0,100,100⟩]⟩
    ⟨1,0,0,-1,50,150⟩ ⟨0,0,100,100⟩ (by norm_num [det_of]) rfl
    (by norm_num [base_bounds_for_component_glyph, layer_bounds_complete,
      rect_ok, List.find?])).1
    ⟨1,0,0,1,50,50⟩ (by
      norm_num [scan_comp, is_reflected, det_of, base_bounds_for_component_glyph,
        layer_bounds_complete, rect_ok, List.find?, choose_best_fix, fix_cands,
        mk_cand, best_cand, flipY_in_component_space, flipX_in_component_space,
        bbox_from_transformed_base_bounds, apply_affine_to_point, delta_to_match])

/-- C2: every transform the mirror mender writes has determinant `≥ 0`, and a
component for which no correction op is produced is left untouched by Run. -/
theorem mirror_orientation_invariant (prefer : Prefer) (anchor : Anchor)
    (c : MComp) :
    (∀ sNew, scan_comp prefer anchor c = some sNew → 0 ≤ det_of sNew) ∧
    (scan_comp prefer anchor c = none → apply_comp prefer anchor c = c) := by
  constructor
  · intro sNew h
    obtain ⟨_, _, _, _, _, _, _, _, hd⟩ := scan_comp_inv h
    exact not_lt.mp hd
  · intro h
    unfold apply_comp
    rw [h]

/-- Witness for C2 at the spec §8 scenario: the accepted correction
`(1,0,0,1,50,50)` has determinant `≥ 0`. -/
theorem mirror_orientation_invariant_witness : 0 ≤ det_of ⟨1,0,0,1,50,50⟩ :=
  (mirror_orientation_invariant .auto .bottomleft
    ⟨some ⟨1,0,0,-1,50,150⟩, some [⟨0,0,100,100⟩]⟩).1 ⟨1,0,0,1,50,50⟩ (by
      norm_num [scan_comp, is_reflected, det_of, base_bounds_for_component_glyph,
        layer_bounds_complete, rect_ok, List.find?, choose_best_fix, fix_cands,
        mk_cand, best_cand, flipY_in_component_space, flipX_in_component_space,
        bbox_from_transformed_base_bounds, apply_affine_to_point, delta_to_match])

/-- C6: in Auto mode, when both flip candidates survive the determinant check
and their scores `|dx|+|dy|` are exactly equal, the vertical-flip candidate is
chosen (Python's stable sort keeps the Y candidate, built first, in front). -/
theorem auto_tie_prefers_vertical (beforeB baseB : BBox) (s : Transform)
    (anchor : Anchor)
    (hY : 0 ≤ det_of (flipY_in_component_space s))
    (hX : 0 ≤ det_of (flipX_in_component_space s))
    (htie : (mk_cand .Y beforeB baseB (flipY_in_component_space s) anchor).score =
            (mk_cand .X beforeB baseB (flipX_in_component_space s) anchor).score) :
    choose_best_fix beforeB baseB s .auto anchor =
      some (mk_cand .Y beforeB baseB (flipY_in_component_space s) anchor) := by
  unfold choose_best_fix
  rw [fix_cands_both hY hX]
  simp only [best_cand]
  rw [if_neg (not_lt.mpr (le_of_eq htie))]

/-- Witness for C6: a 90°-rotation-with-reflection transform whose two repair
candidates tie at score 1; the vertical flip wins. -/
theorem auto_tie_prefers_vertical_witness :
    choose_best_fix (bbox_from_transformed_base_bounds ⟨0,0,1,1⟩ ⟨0,1,1,0,0,0⟩)
      ⟨0,0,1,1⟩ ⟨0,1,1,0,0,0⟩ .auto .bottomleft =
    some (mk_cand .Y (bbox_from_transformed_base_bounds ⟨0,0,1,1⟩ ⟨0,1,1,0,0,0⟩)
      ⟨0,0,1,1⟩ (flipY_in_component_space ⟨0,1,1,0,0,0⟩) .bottomleft) :=
  auto_tie_prefers_vertical _ _ _ _
    (by norm_num [det_of, flipY_in_component_space])
    (by norm_num [det_of, flipX_in_component_space])
    (by norm_num [mk_cand, delta_to_match, bbox_from_transformed_base_bounds,
      apply_affine_to_point, flipY_in_component_space, flipX_in_component_space])

/-- C7: with a forced axis, the forced candidate is used whenever it survives
the determinant check; when it does not survive, the planner returns no
correction at all (the other axis is never substituted — indeed both flips
share the determinant `-det s`, so they survive or fail together). -/
theorem forced_axis_policy (beforeB baseB : BBox) (s : Transform)
    (anchor : Anchor) :
    (0 ≤ det_of (flipY_in_component_space s) →
      choose_best_fix beforeB baseB s .vertical anchor =
        some (mk_cand .Y beforeB baseB (flipY_in_component_space s) anchor)) ∧
    (det_of (flipY_in_component_space s) < 0 →
      choose_best_fix beforeB baseB s .vertical anchor = none) ∧
    (0 ≤ det_of (flipX_in_component_space s) →
      choose_best_fix beforeB baseB s .horizontal anchor =
        some (mk_cand .X beforeB baseB (flipX_in_component_space s) anchor)) ∧
    (det_of (flipX_in_component_space s) < 0 →
      choose_best_fix beforeB baseB s .horizontal anchor = none) := by
  have hYX : det_of (flipX_in_component_space s) =
      det_of (flipY_in_component_space s) := by
    rw [det_flipX, det_flipY]
  refine ⟨?_, ?_, ?_, ?_⟩
  · intro hY
    unfold choose_best_fix
    by_cases hX : 0 ≤ det_of (flipX_in_component_space s)
    · rw [fix_cands_both hY hX]
      simp [mk_cand, List.find?]
    · have : fix_cands beforeB baseB s anchor =
        [mk_cand .Y beforeB baseB (flipY_in_component_space s) anchor] := by
        unfold fix_cands
        rw [if_pos hY, if_neg hX]
        rfl
      rw [this]
      simp [mk_cand, List.find?]
  · intro hY
    have hX : ¬ 0 ≤ det_of (flipX_in_component_space s) := by
      rw [hYX]; exact not_le.mpr hY
    unfold choose_best_fix
    have : fix_cands beforeB baseB s anchor = [] := by
      unfold fix_cands
      rw [if_neg (not_le.mpr hY), if_neg hX]
      rfl
    rw [this]
  · intro hX
    unfold choose_best_fix
    by_cases hY : 0 ≤ det_of (flipY_in_component_space s)
    · rw [fix_cands_both hY hX]
      simp [mk_cand, List.find?]
    · have : fix_cands beforeB baseB s anchor =
        [mk_cand .X beforeB baseB (flipX_in_component_space s) anchor] := by
        unfold fix_cands
        rw [if_neg hY, if_pos hX]
        rfl
      rw [this]
      simp [mk_cand, List.find?]
  · intro hX
    have hY : ¬ 0 ≤ det_of (flipY_in_component_space s) := by
      rw [← hYX]; exact not_le.mpr hX
    unfold choose_best_fix
    have : fix_cands beforeB baseB s anchor = [] := by
      unfold fix_cands
      rw [if_neg hY, if_neg (not_le.mpr hX)]
      rfl
    rw [this]

/-- Witness for C7: a plain vertical reflection forced to VerticalOnly uses
the vertical-flip candidate. -/
theorem forced_axis_policy_witness :
    choose_best_fix ⟨0,0,1,1⟩ ⟨0,0,1,1⟩ ⟨1,0,0,-1,0,0⟩ .vertical .bottomleft =
      some (mk_cand .Y ⟨0,0,1,1⟩ ⟨0,0,1,1⟩
        (flipY_in_component_space ⟨1,0,0,-1,0,0⟩) .bottomleft) :=
  (forced_axis_policy ⟨0,0,1,1⟩ ⟨0,0,1,1⟩ ⟨1,0,0,-1,0,0⟩ .bottomleft).1
    (by norm_num [det_of, flipY_in_component_space])

/-! ## Grid-snapper lemmas and claim theorems -/

/-- Python's `round` is the identity on integers. -/
lemma pyRound_intCast (k : ℤ) : pyRound (k : ℚ) = k := by
  simp [pyRound, Int.floor_intCast]

/-- Python's `round` lands within half a unit of its argument. -/
lemma pyRound_le_half (q : ℚ) : |(pyRound q : ℚ) - q| ≤ 1/2 := by
  have h0 : (⌊q⌋ : ℚ) ≤ q := Int.floor_le q
  have h1 : q < ⌊q⌋ + 1 := Int.lt_floor_add_one q
  simp only [pyRound]
  split_ifs <;> rw [abs_le] <;> constructor <;> push_cast <;> linarith

/-- Gridline multiples are fixed points of `snap_value`. -/
lemma snap_value_fixed {step : ℚ} (h : 0 < step) (k : ℤ) :
    snap_value ((k : ℚ) * step) step = (k : ℚ) * step := by
  unfold snap_value
  rw [if_neg (not_le.mpr h), mul_div_cancel_right₀ _ (ne_of_gt h),
    pyRound_intCast]

/-- For a positive step, `snap_if_within` always reports the nearest gridline
as its first component. -/
lemma snap_if_within_fst {step tol : ℚ} (h : 0 < step) (v : ℚ) :
    (snap_if_within v step tol).1 = snap_value v step := by
  simp only [snap_if_within, if_neg (not_le.mpr h)]
  split <;> rfl

/-- A coordinate already on a gridline is never reported as changed. -/
lemma snap_on_grid {step tol : ℚ} (h : 0 < step) (k : ℤ) :
    (snap_if_within ((k : ℚ) * step) step tol).2.1 = false := by
  simp only [snap_if_within, if_neg (not_le.mpr h), snap_value_fixed h]
  split <;> norm_num

/-- Inversion for the per-component grid scan. -/
lemma gsnap_comp_inv {step tol : ℚ} {c : GComp} {sNew : Transform}
    (h : gsnap_comp step tol c = some sNew) :
    ∃ s, c.s? = some s ∧
      sNew = ⟨s.m11, s.m12, s.m21, s.m22, (snap_if_within s.tX step tol).1,
              (snap_if_within s.tY step tol).1⟩ ∧
      ((snap_if_within s.tX step tol).2.1 ||
        (snap_if_within s.tY step tol).2.1) = true := by
  unfold gsnap_comp at h
  cases hs : c.s? with
  | none => rw [hs] at h; simp at h
  | some s =>
    rw [hs] at h
    simp only at h
    split at h
    case isTrue hch =>
      injection h with h'
      exact ⟨s, rfl, h'.symm, hch⟩
    case isFalse => simp at h

/-- After one application of the grid snapper, a component no longer
qualifies for snapping. -/
lemma gsnap_after {step tol : ℚ} (h : 0 < step) (c : GComp) :
    gsnap_comp step tol (gapply_comp step tol c) = none := by
  cases hc : gsnap_comp step tol c with
  | none =>
    unfold gapply_comp
    rw [hc]
    exact hc
  | some sNew =>
    obtain ⟨s, hs, hnew, _⟩ := gsnap_comp_inv hc
    have hx : sNew.tX = ((pyRound (s.tX / step) : ℤ) : ℚ) * step := by
      rw [hnew]
      simp only [snap_if_within_fst h, snap_value, if_neg (not_le.mpr h)]
    have hy : sNew.tY = ((pyRound (s.tY / step) : ℤ) : ℚ) * step := by
      rw [hnew]
      simp only [snap_if_within_fst h, snap_value, if_neg (not_le.mpr h)]
    unfold gapply_comp
    rw [hc]
    show gsnap_comp step tol ⟨some sNew⟩ = none
    unfold gsnap_comp
    simp only [hx, hy, snap_on_grid h, Bool.or_self, Bool.false_eq_true,
      if_false]

/-- C5: running the grid-snap scan-and-apply a second time on the result of a
first run finds zero defective components, issues zero writes, and leaves
every transform unchanged, for any `step > 0` and `tolerance ≥ 0`. -/
theorem grid_snap_idempotent (step tol : ℚ) (hs : 0 < step) (ht : 0 ≤ tol)
    (comps : List GComp) :
    (∀ c ∈ gapply step tol comps, gsnap_comp step tol c = none) ∧
    (gapply step tol comps).filterMap (gsnap_comp step tol) = [] ∧
    gapply step tol (gapply step tol comps) = gapply step tol comps := by
  clear ht
  have key : ∀ c, gsnap_comp step tol (gapply_comp step tol c) = none :=
    gsnap_after hs
  have mem : ∀ c ∈ gapply step tol comps, gsnap_comp step tol c = none := by
    intro c hc
    obtain ⟨c0, _, rfl⟩ := List.mem_map.mp hc
    exact key c0
  refine ⟨mem, ?_, ?_⟩
  · rw [List.filterMap_eq_nil_iff]
    exact mem
  · unfold gapply
    rw [List.map_map]
    apply List.map_congr_left
    intro c _
    show gapply_comp step tol (gapply_comp step tol c) = gapply_comp step tol c
    have hinner := key c
    show (match gsnap_comp step tol (gapply_comp step tol c) with
      | none => gapply_comp step tol c
      | some sNew => GComp.mk (some sNew)) = gapply_comp step tol c
    rw [hinner]

/-- Witness for C5 at `step = 25`, `tol = 0` on one off-grid component. -/
theorem grid_snap_idempotent_witness :
    (∀ c ∈ gapply 25 0 [⟨some ⟨1,0,0,1,12,13⟩⟩], gsnap_comp 25 0 c = none) ∧
    (gapply 25 0 [⟨some ⟨1,0,0,1,12,13⟩⟩]).filterMap (gsnap_comp 25 0) = [] ∧
    gapply 25 0 (gapply 25 0 [⟨some ⟨1,0,0,1,12,13⟩⟩]) =
      gapply 25 0 [⟨some ⟨1,0,0,1,12,13⟩⟩] :=
  grid_snap_idempotent 25 0 (by norm_num) (le_refl 0) _

/-- C4 (amended): the nearest gridline used by the grid snapper is
`round(c/step)*step` with Python's round-half-to-even: the result is an
integer multiple of `step` within `step/2` of `c`, and a quotient exactly
halfway between two integers rounds to the even one (not away from zero). -/
theorem snap_nearest_half_even (c step : ℚ) (h : 0 < step) :
    (∃ k : ℤ, snap_value c step = (k : ℚ) * step) ∧
    |snap_value c step - c| ≤ step / 2 ∧
    (∀ n : ℤ, c / step = (n : ℚ) + 1/2 → pyRound (c / step) % 2 = 0) := by
  refine ⟨⟨pyRound (c / step), ?_⟩, ?_, ?_⟩
  · unfold snap_value
    rw [if_neg (not_le.mpr h)]
  · unfold snap_value
    rw [if_neg (not_le.mpr h)]
    have hq := pyRound_le_half (c / step)
    have hrw : (pyRound (c/step) : ℚ) * step - c =
        ((pyRound (c/step) : ℚ) - c/step) * step := by
      field_simp
    rw [hrw, abs_mul, abs_of_pos h]
    calc |(pyRound (c/step) : ℚ) - c/step| * step
        ≤ (1/2) * step := mul_le_mul_of_nonneg_right hq (le_of_lt h)
      _ = step / 2 := by ring
  · intro n hn
    rw [hn]
    have hfl : ⌊(n : ℚ) + 1/2⌋ = n := by
      rw [Int.floor_int_add]
      norm_num
    simp only [pyRound, hfl]
    have hr : ((n : ℚ) + 1/2) - (n : ℚ) = 1/2 := by ring
    rw [hr, if_neg (by norm_num), if_neg (by norm_num)]
    split_ifs with hpar
    · exact hpar
    · omega

/-- Witness for C4's amended statement at `c = 12`, `step = 25`. -/
theorem snap_nearest_half_even_witness :
    (∃ k : ℤ, snap_value 12 25 = (k : ℚ) * 25) ∧
    |snap_value 12 25 - 12| ≤ 25 / 2 ∧
    (∀ n : ℤ, (12 : ℚ) / 25 = (n : ℚ) + 1/2 →
      pyRound ((12 : ℚ) / 25) % 2 = 0) :=
  snap_nearest_half_even 12 25 (by norm_num)

/-- Counterexample to C4 as stated: at `c = 12.5`, `step = 25` the quotient is
exactly `1/2`; the code's Python `round` (half to even) yields gridline `0`,
while round-half-away-from-zero would yield `25`. -/
theorem snap_half_away_cex :
    snap_value (25/2) 25 = 0 ∧
    (roundHalfAwayFromZero ((25/2) / 25) : ℚ) * 25 = 25 := by
  constructor
  · norm_num [snap_value, pyRound]
  · norm_num [roundHalfAwayFromZero]

/-- C3 (code bug): with `step = 25`, `tolerance = 5` and translation
`(10, 24)`, `tX = 10` is 10 units from its nearest gridline — beyond the
tolerance, so by the spec (and by the scan's own preview line, which prints
"tX unchanged") it must be left at 10 — yet because `tY` qualifies the scan
writes `snap_if_within`'s `newX = 0` for the X axis too.  The second conjunct
shows the X axis was indeed not flagged as changed. -/
theorem grid_cross_axis_write_bug :
    gsnap_comp 25 5 ⟨some ⟨1,0,0,1,10,24⟩⟩ = some ⟨1,0,0,1,0,25⟩ ∧
    (snap_if_within 10 25 5).2.1 = false := by
  constructor
  · norm_num [gsnap_comp, snap_if_within, snap_value, pyRound]
  · norm_num [snap_if_within, snap_value, pyRound]

/-- C8 (amended): the mirror-defect detector flags a component exactly when
its transform's determinant is strictly negative; determinant exactly zero is
never flagged.  (There is no near-zero tolerance band: see the
counterexample theorem for a flagged determinant of magnitude `1e-9`.) -/
theorem reflection_flag_amended (c : MComp) (s : Transform)
    (hs : c.s? = some s) :
    (is_reflected c = true ↔ det_of s < 0) ∧
    (det_of s = 0 → is_reflected c = false) := by
  constructor
  · unfold is_reflected
    rw [hs]
    simp
  · intro h0
    unfold is_reflected
    rw [hs]
    simp [h0]

/-- Witness for C8's amended statement at a plain vertical reflection. -/
theorem reflection_flag_amended_witness :
    (is_reflected ⟨some ⟨1,0,0,-1,0,0⟩, none⟩ = true ↔
      det_of ⟨1,0,0,-1,0,0⟩ < 0) ∧
    (det_of ⟨1,0,0,-1,0,0⟩ = 0 →
      is_reflected ⟨some ⟨1,0,0,-1,0,0⟩, none⟩ = false) :=
  reflection_flag_amended ⟨some ⟨1,0,0,-1,0,0⟩, none⟩ ⟨1,0,0,-1,0,0⟩ rfl

/-- Counterexample to C8 as stated: a transform with determinant `-1e-9`
(magnitude well below `1e-6`, i.e. "approximately zero") is still flagged as
defective by `is_reflected`. -/
theorem degenerate_still_flagged_cex :
    |det_of ⟨1,0,0,-(1/1000000000),0,0⟩| ≤ 1/1000000 ∧
    is_reflected ⟨some ⟨1,0,0,-(1/1000000000),0,0⟩, none⟩ = true := by
  constructor
  · norm_num [det_of, abs_le]
  · norm_num [is_reflected, det_of]

/-- C10: a mirrored component whose base bounds cannot be resolved — or whose
every available bounds rectangle has zero width or zero height — contributes
no correction op and is left untouched, with the scan returning normally. -/
theorem missing_base_bounds_no_op (prefer : Prefer) (anchor : Anchor)
    (c : MComp) :
    (base_bounds_for_component_glyph c = none →
      scan_comp prefer anchor c = none ∧ apply_comp prefer anchor c = c) ∧
    (∀ l, c.baseCands = some l → (∀ b ∈ l, b.w = 0 ∨ b.h = 0) →
      base_bounds_for_component_glyph c = none) := by
  constructor
  · intro hb
    have hscan : scan_comp prefer anchor c = none := by
      unfold scan_comp
      split
      · cases hs : c.s? with
        | none => rfl
        | some s =>
          rw [hb]
      · rfl
    refine ⟨hscan, ?_⟩
    unfold apply_comp
    rw [hscan]
  · intro l hl hz
    have hfind : l.find? rect_ok = none := by
      rw [List.find?_eq_none]
      intro b hb
      rcases hz b hb with h0 | h0 <;> simp [rect_ok, h0]
    unfold base_bounds_for_component_glyph
    rw [hl]
    show layer_bounds_complete l = none
    unfold layer_bounds_complete
    rw [hfind]

/-- Witness for C10: a reflected component whose only bounds rectangle has
zero width. -/
theorem missing_base_bounds_no_op_witness :
    scan_comp .auto .bottomleft ⟨some ⟨1,0,0,-1,0,0⟩, some [⟨0,0,0,100⟩]⟩ =
      none ∧
    apply_comp .auto .bottomleft ⟨some ⟨1,0,0,-1,0,0⟩, some [⟨0,0,0,100⟩]⟩ =
      ⟨some ⟨1,0,0,-1,0,0⟩, some [⟨0,0,0,100⟩]⟩ :=
  (missing_base_bounds_no_op .auto .bottomleft _).1
    ((missing_base_bounds_no_op .auto .bottomleft _).2 [⟨0,0,0,100⟩] rfl
      (by simp))

/-- C9: grid-snap Run issues zero transform writes whenever `step ≤ 0`,
`tolerance < 0`, or the resolved scope is empty — no font open, empty layer
selection, no masters, no selected or exportable glyphs, or no layers for the
chosen scope. -/
theorem grid_scope_guard (f? : Option GFont) (sIdx mMode : ℕ) (step tol : ℚ)
    (h : step ≤ 0 ∨ tol < 0 ∨ f? = none
      ∨ (∃ f, f? = some f ∧ sIdx = 0 ∧ f.selectedLayers = [])
      ∨ (∃ f, f? = some f ∧ sIdx ≠ 0 ∧ resolve_masters f mMode = [])
      ∨ (∃ f, f? = some f ∧ sIdx = 1 ∧ selected_glyphs f.selectedLayers = [])
      ∨ (∃ f, f? = some f ∧ sIdx ≠ 0 ∧ sIdx ≠ 1 ∧
          exportable_glyphs f.glyphs = [])
      ∨ (∃ f, f? = some f ∧ sIdx ≠ 0 ∧
          expand_layers (if sIdx = 1 then selected_glyphs f.selectedLayers
            else exportable_glyphs f.glyphs) (resolve_masters f mMode) = [])) :
    grid_run f? sIdx mMode step tol = [] := by
  unfold grid_run
  rcases h with h | h | h | ⟨f, rfl, h0, hsel⟩ | ⟨f, rfl, h0, hm⟩ |
    ⟨f, rfl, h1, hg⟩ | ⟨f, rfl, h0, h1, hg⟩ | ⟨f, rfl, h0, hl⟩
  · cases hc : collect_layers f? sIdx mMode <;> simp [if_pos h]
  · cases hc : collect_layers f? sIdx mMode with
    | error e => simp
    | ok layers => by_cases hstep : step ≤ 0 <;> simp [hstep, if_pos h]
  · subst h
    simp [collect_layers]
  · subst h0
    simp [collect_layers, hsel]
  · simp [collect_layers, h0, hm]
  · subst h1
    by_cases hm : (resolve_masters f mMode).isEmpty <;>
      simp [collect_layers, hm, hg]
  · by_cases hm : (resolve_masters f mMode).isEmpty <;>
      simp [collect_layers, h0, h1, hm, hg]
  · by_cases hm : (resolve_masters f mMode).isEmpty <;>
    by_cases hg : (if sIdx = 1 then selected_glyphs f.selectedLayers
        else exportable_glyphs f.glyphs).isEmpty <;>
      simp [collect_layers, h0, hm, hg, hl]

/-- Witness for C9: no font open. -/
theorem grid_scope_guard_witness : grid_run none 0 0 25 0 = [] :=
  grid_scope_guard none 0 0 25 0 (Or.inr (Or.inr (Or.inl rfl)))

end GlyphsTools
